import Mathlib

/-!
# Verification of the batch analysis orchestrator

Shallow embedding of the batch-analysis loop of the Amelia-Support-Insights
dashboard.  The orchestrator is implemented three times in the repository with
small variations:

* `src/unnamed/part_000`            — modal emitting results through the
  `onAnalysisUpdate` callback (the "sink"); probes the API key only when an
  explicit override is configured; no item limit; tracks `processedCount`
  (successes), `errorCount` and `progress`.
* `src/unnamed/part_001`            — modal accumulating results in local
  state; always probes the key; processes `tickets.slice(0, 50)`.
* `src/components/AiAnalysisModal.tsx` — like part_001 but its catch block
  only recognises auth failures (`err.message.includes('401') ||
  err.message.includes('API key')`, case sensitive) and has no rate-limit
  classification.

All three share the same loop skeleton (lines 106–185 of part_000):

```
for (let i = 0; i < ticketsToProcess.length; i++) {
  if (!isRunningRef.current) break;                  -- checkpoint 2*i
  const startTime = Date.now();
  try { history; analyze; push success }
  catch (err) { classify; push synthetic; on fatal break }
  setProgress(i + 1);
  if (i < len - 1 && isRunningRef.current) {         -- checkpoint 2*i+1
    wait = max(0, delayMs - elapsed); if (wait > 0) sleep(wait);
  }
}
```

The embedding is a single driver `runLoop` parameterised by a
`DriverParams` record capturing exactly the points where the three copies
differ (probe policy, item limit, classifier, synthetic-result builders).
External collaborators (history fetch, analysis call, wall-clock elapsed
time, key validity) are oracles in `Providers`, indexed by loop position.
The advisory cancellation flag `isRunningRef` is an oracle `cancel :
Nat → Bool` sampled only at its two read sites, numbered `2*i` (top of
iteration `i`) and `2*i + 1` (before the throttle sleep of iteration `i`);
`cancel j = true` means a stop was requested by the time checkpoint `j`
runs.  Wall-clock quantities are rationals.  The terminal `BatchStatus`
abstracts which exit path the loop took (the source components encode it
through `step`/`authError` UI state).
-/

/-! ## String helpers

Kernel-computable models of the JavaScript string operations used by the
classifier and the key normaliser.  `strLower` models
`String.prototype.toLowerCase` (the messages involved are ASCII),
`strContains` models `String.prototype.includes`, `strTrim` models
`String.prototype.trim` on its ASCII whitespace subset. -/

def strLower (s : String) : String := ⟨s.data.map Char.toLower⟩

def charsLead : List Char → List Char → Bool
  | [], _ => true
  | _ :: _, [] => false
  | p :: ps, c :: cs => p == c && charsLead ps cs

def charsSub (pat : List Char) : List Char → Bool
  | [] => charsLead pat []
  | c :: cs => charsLead pat (c :: cs) || charsSub pat cs

def strContains (s pat : String) : Bool := charsSub pat.data s.data

def jsWhitespace (c : Char) : Bool := c == ' ' || c == '\t' || c == '\n' || c == '\r'

def strTrim (s : String) : String :=
  ⟨((s.data.dropWhile jsWhitespace).reverse.dropWhile jsWhitespace).reverse⟩

/-- Model of `.replace(/^["']|["']$/g, '')` from `src/services/ai.ts`
(lines 43 and 112): the regex removes one leading quote character (double
or single) and one trailing quote character, each independently. -/
def stripLeadQuote : List Char → List Char
  | [] => []
  | c :: cs => if c == '"' || c == '\'' then cs else c :: cs

def stripEdgeQuotes (s : String) : String :=
  ⟨(stripLeadQuote (stripLeadQuote s.data).reverse).reverse⟩

/-! ## Data model -/

/-- Failure signal thrown by a collaborator: `err.status || 0` and
`err.message` (an absent message is the empty string, matching
`err.message?.toLowerCase() || ''`). -/
structure Failure where
  status : Nat
  message : String
  deriving Repr, DecidableEq

/-- The JSON payload the analysis provider returns on success, mirroring
`analysisSchema` of `src/services/ai.ts` (exactly the five declared,
required properties; the schema declares no `error` property). -/
structure AnalysisPayload where
  score : ℚ
  summary : String
  strengths : List String
  weaknesses : List String
  rcaDetected : Bool
  deriving Repr, DecidableEq

/-- `AiAnalysisResult` of `src/unnamed/part_002` (the types module):
`error?` is the optional error-reason; a result with a non-empty `error`
is a synthetic failure result. -/
structure AiAnalysisResult where
  ticketId : Nat
  score : ℚ
  summary : String
  strengths : List String
  weaknesses : List String
  rcaDetected : Bool
  error : Option String
  deriving Repr, DecidableEq

/-- `AiConfig` of the types module. -/
structure AiConfig where
  apiKey : String
  model : String
  rpm : Nat
  deriving Repr, DecidableEq

/-- Outcomes of the external collaborators, per loop position `i`:
`hist i` is the ticket-history fetch, `ana i` the analysis call (consulted
only when the history call succeeded), `elapsed i` the wall-clock time of
iteration `i`'s two calls (`Date.now() - startTime`), `validKey` the
outcome of the `validateApiKey` probe. -/
structure Providers where
  hist : Nat → Except Failure Unit
  ana : Nat → Except Failure AnalysisPayload
  elapsed : Nat → ℚ
  validKey : Bool

/-- Severity classes of the error classifier. -/
inductive Classification
  | fatalAuth
  | fatalRate
  | recoverable
  deriving Repr, DecidableEq

/-- Which exit path the batch took. -/
inductive BatchStatus
  | completed
  | stoppedAuth
  | stoppedRate
  | cancelled
  | rejected
  deriving Repr, DecidableEq

/-! ## Error classifier -/

/-- `isAuthError` of part_000 line 134 / part_001 line 139:
`msg.includes('401') || msg.includes('api key') || msg.includes('unauthorized')
|| status === 401`, on the lowercased message. -/
def isAuthSignal (status : Nat) (message : String) : Bool :=
  let msg := strLower message
  strContains msg "401" || strContains msg "api key" ||
    strContains msg "unauthorized" || status == 401

/-- `isRateLimit` of part_000 line 135 / part_001 line 142:
`status === 429 || msg.includes('429') || msg.includes('quota') ||
msg.includes('too many requests') || msg.includes('resource exhausted')`. -/
def isRateSignal (status : Nat) (message : String) : Bool :=
  let msg := strLower message
  status == 429 || strContains msg "429" || strContains msg "quota" ||
    strContains msg "too many requests" || strContains msg "resource exhausted"

/-- Classifier of part_000 lines 131–137 and part_001 lines 135–144:
`if (isAuthError || isRateLimit) { ... isRateLimit ? RateLimited : AuthFailed }`.
Note the rate-limit test wins inside the combined branch. -/
def classifyV1 (status : Nat) (message : String) : Classification :=
  if isAuthSignal status message || isRateSignal status message then
    (if isRateSignal status message then .fatalRate else .fatalAuth)
  else .recoverable

/-- Classifier of `src/components/AiAnalysisModal.tsx` lines 111–112:
`if (err.message && (err.message.includes('401') ||
err.message.includes('API key')))` — case sensitive, raw message, status
code ignored, no rate-limit case. -/
def classifyV2 (_status : Nat) (message : String) : Classification :=
  if message != "" && (strContains message "401" || strContains message "API key") then
    .fatalAuth
  else .recoverable

/-! ## Synthetic and successful results -/

/-- `err.message || "Unknown error"`. -/
def orUnknown (m : String) : String := if m == "" then "Unknown error" else m

/-- Successful result built by `AiService.analyzeTicket`
(`{ ticketId: ticket.ticketId, ...parsed }` where `parsed` carries exactly
the schema fields); it has no `error` field. -/
def mkSuccess (tid : Nat) (p : AnalysisPayload) : AiAnalysisResult :=
  ⟨tid, p.score, p.summary, p.strengths, p.weaknesses, p.rcaDetected, none⟩

/-- Fatal synthetic result of part_000 lines 143–151. -/
def modal0Fatal (tid : Nat) (isRate : Bool) : AiAnalysisResult :=
  ⟨tid, 0, if isRate then "Rate Limit Exceeded" else "Auth Failed", [], [], false,
    some (if isRate then "429 Quota Exceeded" else "401 Unauthorized")⟩

/-- Recoverable synthetic result of part_000 lines 156–164. -/
def modal0Recov (tid : Nat) (m : String) : AiAnalysisResult :=
  ⟨tid, 0, "Analysis failed", [], [], false, some (orUnknown m)⟩

/-- Fatal synthetic result of part_001 lines 148–164. -/
def modal1Fatal (tid : Nat) (isRate : Bool) : AiAnalysisResult :=
  let d := if isRate then "API Quota Exceeded" else "Invalid API Key"
  ⟨tid, 0, "Processing halted: " ++ d, [], [d], false,
    some (if isRate then "Rate Limit Exceeded (429)" else "Critical Auth Error")⟩

/-- Recoverable synthetic result of part_001 lines 169–177. -/
def modal1Recov (tid : Nat) (m : String) : AiAnalysisResult :=
  ⟨tid, 0, "Analysis failed.", [], ["Error processing ticket"], false, some (orUnknown m)⟩

/-- Fatal synthetic result of AiAnalysisModal.tsx lines 114–122. -/
def modal2Fatal (tid : Nat) (_isRate : Bool) : AiAnalysisResult :=
  ⟨tid, 0, "Authentication failed during batch processing.", [],
    ["Invalid or Expired API Key"], false, some "Critical Auth Error"⟩

/-- Recoverable synthetic result of AiAnalysisModal.tsx lines 127–134. -/
def modal2Recov (tid : Nat) (m : String) : AiAnalysisResult :=
  ⟨tid, 0, "Analysis failed.", [], ["Error processing ticket"], false, some (orUnknown m)⟩

/-! ## Rate limiter -/

/-- `Math.max(100, 60000 / config.rpm)` (part_000 line 102). -/
def throttleInterval (rpm : Nat) : ℚ := max 100 (60000 / (rpm : ℚ))

/-- `Math.max(0, delayMs - elapsedTime)` (part_000 line 171). -/
def waitFor (delay elapsed : ℚ) : ℚ := max 0 (delay - elapsed)

/-! ## Batch driver -/

/-- Points where the three loop copies differ. -/
structure DriverParams where
  /-- `true`: `validateApiKey` is called on every run (part_001, the tsx
  modal); `false`: only when `config.apiKey` is non-empty (part_000). -/
  probeRequired : Bool
  /-- `tickets.slice(0, 50)` limit, when present. -/
  limit : Option Nat
  classify : Nat → String → Classification
  fatalSynth : Nat → Bool → AiAnalysisResult
  recovSynth : Nat → String → AiAnalysisResult

/-- Driver-visible accumulator: sink contents, counters, and the calls and
waits performed (instrumentation recording the loop's observable effects).
`processedCount`/`errorCount` mirror part_000's counters (`setProcessedCount`
runs only in its success branch, `setErrorCount` only in its catch block);
the other two copies simply do not read them. -/
structure Accum where
  results : List AiAnalysisResult := []
  processedCount : Nat := 0
  errorCount : Nat := 0
  progress : Nat := 0
  probes : Nat := 0
  histCalls : List Nat := []
  anaCalls : List Nat := []
  waits : List (Nat × ℚ) := []

/-- Terminal state of a run. -/
structure RunState extends Accum where
  status : BatchStatus

/-- Combined outcome of iteration `i`'s two provider calls: the failure
signal is whichever of the history fetch or the analysis call threw
(the analysis call is made only when the history fetch succeeded). -/
def itemOutcome (provs : Providers) (i : Nat) : Except Failure AnalysisPayload :=
  match provs.hist i with
  | .error f => .error f
  | .ok _ => provs.ana i

/-- The analysis call of iteration `i` happens exactly when the history
fetch succeeded. -/
def anaCallsAt (provs : Providers) (i : Nat) : List Nat :=
  match provs.hist i with
  | .ok _ => [i]
  | .error _ => []

/-- Throttle step after iteration `i` (part_000 lines 169–175): when `i`
is not the last index and no stop was requested, record the computed
`timeToWait = max(0, delayMs - elapsedTime)` (the sleep itself is skipped
when the value is 0, so the recorded number is the wait applied). -/
def stepThrottle (provs : Providers) (cancel : Nat → Bool) (delay : ℚ)
    (rest : List Nat) (i : Nat) (a : Accum) : Accum :=
  if rest.isEmpty || cancel (2 * i + 1) then a
  else { a with waits := a.waits ++ [(i, waitFor delay (provs.elapsed i))] }

/-- The sequential batch loop (part_000 lines 106–176, part_001 lines
114–189, AiAnalysisModal.tsx lines 87–151), over the ticket ids still to
process, with `i` the current loop index. -/
def runLoop (P : DriverParams) (provs : Providers) (cancel : Nat → Bool) (delay : ℚ) :
    List Nat → Nat → Accum → RunState
  | [], _, acc => { toAccum := acc, status := .completed }
  | tid :: rest, i, acc =>
    if cancel (2 * i) then { toAccum := acc, status := .cancelled }
    else
      match itemOutcome provs i with
      | .ok p =>
        runLoop P provs cancel delay rest (i + 1)
          (stepThrottle provs cancel delay rest i
            { acc with
              histCalls := acc.histCalls ++ [i],
              anaCalls := acc.anaCalls ++ anaCallsAt provs i,
              results := acc.results ++ [mkSuccess tid p],
              processedCount := acc.processedCount + 1,
              progress := i + 1 })
      | .error f =>
        match P.classify f.status f.message with
        | .recoverable =>
          runLoop P provs cancel delay rest (i + 1)
            (stepThrottle provs cancel delay rest i
              { acc with
                histCalls := acc.histCalls ++ [i],
                anaCalls := acc.anaCalls ++ anaCallsAt provs i,
                results := acc.results ++ [P.recovSynth tid f.message],
                errorCount := acc.errorCount + 1,
                progress := i + 1 })
        | .fatalAuth =>
          { toAccum :=
              { acc with
                histCalls := acc.histCalls ++ [i],
                anaCalls := acc.anaCalls ++ anaCallsAt provs i,
                results := acc.results ++ [P.fatalSynth tid false],
                errorCount := acc.errorCount + 1 },
            status := .stoppedAuth }
        | .fatalRate =>
          { toAccum :=
              { acc with
                histCalls := acc.histCalls ++ [i],
                anaCalls := acc.anaCalls ++ anaCallsAt provs i,
                results := acc.results ++ [P.fatalSynth tid true],
                errorCount := acc.errorCount + 1 },
            status := .stoppedRate }

/-- A whole `startAnalysis` run: optional credential probe, then the loop
over the (possibly sliced) ticket list. -/
def runBatch (P : DriverParams) (cfg : AiConfig) (provs : Providers)
    (cancel : Nat → Bool) (items : List Nat) : RunState :=
  let doProbe := P.probeRequired || cfg.apiKey != ""
  if doProbe && !provs.validKey then
    { toAccum := { probes := 1 }, status := .rejected }
  else
    let toProcess := match P.limit with
      | some n => items.take n
      | none => items
    runLoop P provs cancel (throttleInterval cfg.rpm) toProcess 0
      { probes := if doProbe then 1 else 0 }

def modal0Params : DriverParams :=
  ⟨false, none, classifyV1, modal0Fatal, modal0Recov⟩

def modal1Params : DriverParams :=
  ⟨true, some 50, classifyV1, modal1Fatal, modal1Recov⟩

def modal2Params : DriverParams :=
  ⟨true, some 50, classifyV2, modal2Fatal, modal2Recov⟩

/-- `startAnalysis` of `src/unnamed/part_000`. -/
def runModal0 (cfg : AiConfig) (provs : Providers) (cancel : Nat → Bool)
    (items : List Nat) : RunState :=
  runBatch modal0Params cfg provs cancel items

/-- `startAnalysis` of `src/unnamed/part_001`. -/
def runModal1 (cfg : AiConfig) (provs : Providers) (cancel : Nat → Bool)
    (items : List Nat) : RunState :=
  runBatch modal1Params cfg provs cancel items

/-- `startAnalysis` of `src/components/AiAnalysisModal.tsx`. -/
def runModal2 (cfg : AiConfig) (provs : Providers) (cancel : Nat → Bool)
    (items : List Nat) : RunState :=
  runBatch modal2Params cfg provs cancel items

/-! ## Key resolution (`src/services/ai.ts`) -/

/-- `apiKey ? apiKey.trim().replace(/^["']|["']$/g, '') : process.env.API_KEY`
(lines 43 and 112); an empty-string override is falsy and falls back to the
environment key. -/
def resolveKey (apiKey envKey : Option String) : Option String :=
  match apiKey with
  | some k => if k == "" then envKey else some (stripEdgeQuotes (strTrim k))
  | none => envKey

/-- `AiService.validateApiKey` (lines 42–58): returns the probe outcome and
the list of keys passed to the provider.  `if (!key) return false` covers
both a missing and an empty resolved key; a throwing probe is caught and
returns `false`, which the oracle `probe` already encodes. -/
def validateApiKeyModel (apiKey envKey : Option String) (probe : String → Bool) :
    Bool × List String :=
  match resolveKey apiKey envKey with
  | none => (false, [])
  | some k => if k == "" then (false, []) else (probe k, [k])

/-- `AiService.analyzeTicket` (lines 104–142): resolve the key, throw the
missing-key error when there is none, otherwise call the provider with the
resolved key (the provider oracle folds in parse/empty-response failures).
Returns the outcome and the list of keys passed to the provider. -/
def analyzeTicketModel (apiKey envKey : Option String)
    (provider : String → Except Failure AnalysisPayload) (tid : Nat) :
    Except Failure AiAnalysisResult × List String :=
  match resolveKey apiKey envKey with
  | none =>
    (.error ⟨0, "API Key is missing. Please provide a key or configure the environment."⟩, [])
  | some k =>
    if k == "" then
      (.error ⟨0, "API Key is missing. Please provide a key or configure the environment."⟩, [])
    else
      match provider k with
      | .error f => (.error f, [k])
      | .ok p => (.ok (mkSuccess tid p), [k])

/-! ## Bookkeeping functions describing a run of the loop -/

def exceptOk : Except Failure AnalysisPayload → Bool
  | .ok _ => true
  | .error _ => false

/-- Iteration `i`'s outcome is not classified fatal: it either succeeded
or its failure classifies as `recoverable`. -/
def nonFatalOutcome (P : DriverParams) (o : Except Failure AnalysisPayload) : Prop :=
  ∀ f, o = Except.error f → P.classify f.status f.message = .recoverable

/-- The result the loop emits for ticket `tid` at iteration `i` when that
iteration does not stop the batch. -/
def emitFor (P : DriverParams) (provs : Providers) (i tid : Nat) : AiAnalysisResult :=
  match itemOutcome provs i with
  | .ok p => mkSuccess tid p
  | .error f =>
    match P.classify f.status f.message with
    | .recoverable => P.recovSynth tid f.message
    | .fatalAuth => P.fatalSynth tid false
    | .fatalRate => P.fatalSynth tid true

/-- Results emitted for the tickets `l`, the first at iteration `i`. -/
def emitList (P : DriverParams) (provs : Providers) : Nat → List Nat → List AiAnalysisResult
  | _, [] => []
  | i, tid :: rest => emitFor P provs i tid :: emitList P provs (i + 1) rest

/-- Number of successful iterations among `i, …, i+n-1`. -/
def okCount (provs : Providers) : Nat → Nat → Nat
  | _, 0 => 0
  | i, n + 1 => (if exceptOk (itemOutcome provs i) then 1 else 0) + okCount provs (i + 1) n

/-- Number of failed iterations among `i, …, i+n-1`. -/
def errCount (provs : Providers) : Nat → Nat → Nat
  | _, 0 => 0
  | i, n + 1 => (if exceptOk (itemOutcome provs i) then 0 else 1) + errCount provs (i + 1) n

/-- The analysis calls made during iterations `i, …, i+n-1`. -/
def anaListUpTo (provs : Providers) : Nat → Nat → List Nat
  | _, 0 => []
  | i, n + 1 => anaCallsAt provs i ++ anaListUpTo provs (i + 1) n

/-- The throttle waits recorded after iterations `i, …, i+n-1`. -/
def waitsList (provs : Providers) (delay : ℚ) : Nat → Nat → List (Nat × ℚ)
  | _, 0 => []
  | i, n + 1 => (i, waitFor delay (provs.elapsed i)) :: waitsList provs delay (i + 1) n

/-! ## Concrete fixtures used by witnesses and counterexamples -/

/-- A run with no stop request. -/
def noStop : Nat → Bool := fun _ => false

/-- A stop request that has happened by checkpoint `n`. -/
def stopAt (n : Nat) : Nat → Bool := fun j => decide (n ≤ j)

/-- A well-formed analysis payload. -/
def payloadA : AnalysisPayload := ⟨8, "Handled well", ["fast response"], [], true⟩

/-- All provider calls succeed. -/
def provsAllOk : Providers := ⟨fun _ => .ok (), fun _ => .ok payloadA, fun _ => 0, true⟩

/-- All history calls succeed; the analysis call of iteration `k` throws
`⟨s, m⟩` and every other one succeeds. -/
def provsFailAt (k s : Nat) (m : String) : Providers :=
  ⟨fun _ => .ok (), fun j => if j == k then .error ⟨s, m⟩ else .ok payloadA, fun _ => 0, true⟩

/-- Providers whose credential probe fails. -/
def provsBadKey : Providers := ⟨fun _ => .ok (), fun _ => .ok payloadA, fun _ => 0, false⟩

/-- Default modal configuration (no key override). -/
def cfgDefault : AiConfig := ⟨"", "gemini-2.5-flash", 30⟩

/-- Configuration with an explicit key override. -/
def cfgOverride : AiConfig := ⟨"my-key", "gemini-2.5-flash", 30⟩

theorem emitList_length (P : DriverParams) (provs : Providers) :
    ∀ (l : List Nat) (i : Nat), (emitList P provs i l).length = l.length := by
  intro l
  induction l with
  | nil => intro i; rfl
  | cons t rest ih => intro i; simpa [emitList] using ih (i + 1)

theorem emitList_getElem (P : DriverParams) (provs : Providers) :
    ∀ (l : List Nat) (i k : Nat) (hk : k < l.length),
      (emitList P provs i l)[k]? = some (emitFor P provs (i + k) (l.get ⟨k, hk⟩)) := by
  intro l
  induction l with
  | nil => intro i k hk; simp at hk
  | cons t rest ih =>
    intro i k hk
    cases k with
    | zero => simp [emitList]
    | succ k =>
      have hk : k < rest.length := by simpa using hk
      have := ih (i + 1) k hk
      simp only [emitList, List.getElem?_cons_succ, this, List.get]
      congr 2
      omega

theorem anaListUpTo_mem_lt (provs : Providers) :
    ∀ (n i x : Nat), x ∈ anaListUpTo provs i n → x < i + n := by
  intro n
  induction n with
  | zero => intro i x hx; simp [anaListUpTo] at hx
  | succ n ih =>
    intro i x hx
    simp only [anaListUpTo, List.mem_append] at hx
    rcases hx with hx | hx
    · have : x = i := by
        unfold anaCallsAt at hx
        rcases h : provs.hist i with f | u <;> rw [h] at hx <;> simp at hx
        exact hx
      omega
    · have := ih (i + 1) x hx
      omega

theorem waitsList_length (provs : Providers) (delay : ℚ) :
    ∀ (n i : Nat), (waitsList provs delay i n).length = n := by
  intro n
  induction n with
  | zero => intro i; rfl
  | succ n ih => intro i; simpa [waitsList] using ih (i + 1)

/-! ## Loop characterisation lemmas -/

theorem runLoop_advance (P : DriverParams) (provs : Providers) (cancel : Nat → Bool)
    (delay : ℚ) :
    ∀ (k : Nat) (l : List Nat) (i : Nat) (acc : Accum),
      k ≤ l.length →
      (∀ j, j < k → cancel (2 * (i + j)) = false) →
      (∀ j, j < k → cancel (2 * (i + j) + 1) = false) →
      (∀ j, j < k → nonFatalOutcome P (itemOutcome provs (i + j))) →
      runLoop P provs cancel delay l i acc =
        runLoop P provs cancel delay (l.drop k) (i + k)
          { results := acc.results ++ emitList P provs i (l.take k),
            processedCount := acc.processedCount + okCount provs i k,
            errorCount := acc.errorCount + errCount provs i k,
            progress := if k = 0 then acc.progress else i + k,
            probes := acc.probes,
            histCalls := acc.histCalls ++ List.range' i k,
            anaCalls := acc.anaCalls ++ anaListUpTo provs i k,
            waits := acc.waits ++ waitsList provs delay i (min k (l.length - 1)) } := by
  intro k
  induction k with
  | zero =>
    intro l i acc _ _ _ _
    simp [emitList, okCount, errCount, anaListUpTo, waitsList]
  | succ k ih =>
    intro l i acc hk htop hbnd hnf
    match l with
    | [] => simp at hk
    | t :: rest =>
      have hc : cancel (2 * i) = false := by
        have := htop 0 (by omega)
        simpa using this
      have hshift_top : ∀ j, j < k → cancel (2 * ((i + 1) + j)) = false := by
        intro j hj
        have := htop (j + 1) (by omega)
        have harith : 2 * (i + (j + 1)) = 2 * ((i + 1) + j) := by omega
        rwa [harith] at this
      have hshift_bnd : ∀ j, j < k → cancel (2 * ((i + 1) + j) + 1) = false := by
        intro j hj
        have := hbnd (j + 1) (by omega)
        have harith : 2 * (i + (j + 1)) + 1 = 2 * ((i + 1) + j) + 1 := by omega
        rwa [harith] at this
      have hshift_nf : ∀ j, j < k → nonFatalOutcome P (itemOutcome provs ((i + 1) + j)) := by
        intro j hj
        have := hnf (j + 1) (by omega)
        have harith : i + (j + 1) = (i + 1) + j := by omega
        rwa [harith] at this
      rcases h : itemOutcome provs i with f | p
      · -- iteration i failed; by the hypothesis it classifies recoverable
        have hcls : P.classify f.status f.message = .recoverable := hnf 0 (by omega) f (by simpa using h)
        rw [runLoop, hc]
        simp only [Bool.false_eq_true, if_false, h, hcls]
        rw [ih rest (i + 1) _ (by simpa using hk) hshift_top hshift_bnd hshift_nf]
        have hdrop : (t :: rest).drop (k + 1) = rest.drop k := by simp
        have harith : (i + 1) + k = i + (k + 1) := by omega
        rw [hdrop, harith]
        congr 1
        have hbnd0 : cancel (2 * i + 1) = false := by
          have := hbnd 0 (by omega)
          simpa using this
        rcases rest with _ | ⟨r, rs⟩
        · -- k + 1 ≤ 1 forces k = 0
          have hk0 : k = 0 := by simpa using hk
          subst hk0
          simp [stepThrottle, emitList, emitFor, h, hcls, okCount, errCount, anaListUpTo,
            waitsList, exceptOk]
        · simp only [stepThrottle, List.isEmpty_cons, Bool.false_or, hbnd0,
            Bool.false_eq_true, if_false]
          simp [emitList, emitFor, h, hcls, okCount, errCount, anaListUpTo, waitsList,
            exceptOk, List.range'_succ, Nat.succ_min_succ]
          repeat' apply And.intro
          all_goals first
            | omega
            | (rcases k with _ | k <;> simp <;> omega)
      · -- iteration i succeeded
        rw [runLoop, hc]
        simp only [Bool.false_eq_true, if_false, h]
        rw [ih rest (i + 1) _ (by simpa using hk) hshift_top hshift_bnd hshift_nf]
        have hdrop : (t :: rest).drop (k + 1) = rest.drop k := by simp
        have harith : (i + 1) + k = i + (k + 1) := by omega
        rw [hdrop, harith]
        congr 1
        have hbnd0 : cancel (2 * i + 1) = false := by
          have := hbnd 0 (by omega)
          simpa using this
        rcases rest with _ | ⟨r, rs⟩
        · have hk0 : k = 0 := by simpa using hk
          subst hk0
          simp [stepThrottle, emitList, emitFor, h, okCount, errCount, anaListUpTo,
            waitsList, exceptOk]
        · simp only [stepThrottle, List.isEmpty_cons, Bool.false_or, hbnd0,
            Bool.false_eq_true, if_false]
          simp [emitList, emitFor, h, okCount, errCount, anaListUpTo, waitsList,
            exceptOk, List.range'_succ, Nat.succ_min_succ]
          repeat' apply And.intro
          all_goals first
            | omega
            | (rcases k with _ | k <;> simp <;> omega)

theorem stepThrottle_probes (provs : Providers) (cancel : Nat → Bool) (delay : ℚ)
    (rest : List Nat) (i : Nat) (a : Accum) :
    (stepThrottle provs cancel delay rest i a).probes = a.probes := by
  unfold stepThrottle
  split <;> rfl

theorem stepThrottle_histCalls (provs : Providers) (cancel : Nat → Bool) (delay : ℚ)
    (rest : List Nat) (i : Nat) (a : Accum) :
    (stepThrottle provs cancel delay rest i a).histCalls = a.histCalls := by
  unfold stepThrottle
  split <;> rfl

theorem stepThrottle_results (provs : Providers) (cancel : Nat → Bool) (delay : ℚ)
    (rest : List Nat) (i : Nat) (a : Accum) :
    (stepThrottle provs cancel delay rest i a).results = a.results := by
  unfold stepThrottle
  split <;> rfl

theorem stepThrottle_waits_sub (provs : Providers) (cancel : Nat → Bool) (delay : ℚ)
    (rest : List Nat) (i : Nat) (a : Accum) (p : Nat × ℚ)
    (hp : p ∈ (stepThrottle provs cancel delay rest i a).waits) :
    p ∈ a.waits ∨ p = (i, waitFor delay (provs.elapsed i)) := by
  unfold stepThrottle at hp
  split at hp
  · exact Or.inl hp
  · simp only [List.mem_append, List.mem_singleton] at hp
    exact hp

/-- The key probe count is decided before the loop: no loop iteration
performs a probe. -/
theorem runLoop_probes (P : DriverParams) (provs : Providers) (cancel : Nat → Bool)
    (delay : ℚ) :
    ∀ (l : List Nat) (i : Nat) (acc : Accum),
      (runLoop P provs cancel delay l i acc).probes = acc.probes := by
  intro l
  induction l with
  | nil => intro i acc; rfl
  | cons t rest ih =>
    intro i acc
    rw [runLoop]
    split
    · rfl
    · rcases h : itemOutcome provs i with f | p <;> simp only [h]
      · rcases hcls : P.classify f.status f.message with _ | _ | _ <;> simp only [hcls]
        all_goals first
          | rfl
          | rw [ih, stepThrottle_probes]
      · rw [ih, stepThrottle_probes]

/-- Every recorded throttle wait is the `max(0, delay - elapsed)` of its
own boundary. -/
theorem runLoop_waits_shape (P : DriverParams) (provs : Providers) (cancel : Nat → Bool)
    (delay : ℚ) :
    ∀ (l : List Nat) (i : Nat) (acc : Accum),
      (∀ p ∈ acc.waits, p.2 = waitFor delay (provs.elapsed p.1)) →
      ∀ p ∈ (runLoop P provs cancel delay l i acc).waits,
        p.2 = waitFor delay (provs.elapsed p.1) := by
  intro l
  induction l with
  | nil => intro i acc hacc; exact hacc
  | cons t rest ih =>
    intro i acc hacc
    have hstep : ∀ (a : Accum), (∀ p ∈ a.waits, p.2 = waitFor delay (provs.elapsed p.1)) →
        ∀ p ∈ (stepThrottle provs cancel delay rest i a).waits,
          p.2 = waitFor delay (provs.elapsed p.1) := by
      intro a ha p hp
      rcases stepThrottle_waits_sub provs cancel delay rest i a p hp with h | h
      · exact ha p h
      · rw [h]
    rw [runLoop]
    split
    · exact hacc
    · rcases h : itemOutcome provs i with f | p <;> simp only [h]
      · rcases hcls : P.classify f.status f.message with _ | _ | _ <;> simp only [hcls]
        all_goals first
          | exact hacc
          | exact ih (i + 1) _ (hstep _ hacc)
      · exact ih (i + 1) _ (hstep _ hacc)

/-- Each loop iteration that makes a history call also pushes exactly one
result to the sink before the loop moves on or returns — an item, once
dispatched, always completes with a recorded outcome.  `Rel` relates the
iteration index of each dispatched item to the result emitted for it. -/
theorem runLoop_pairs (P : DriverParams) (provs : Providers) (cancel : Nat → Bool)
    (delay : ℚ) (Rel : Nat → AiAnalysisResult → Prop)
    (Hok : ∀ j t p, itemOutcome provs j = .ok p → Rel j (mkSuccess t p))
    (Hrec : ∀ j t f, itemOutcome provs j = .error f → Rel j (P.recovSynth t f.message))
    (Hfat : ∀ j t f b, itemOutcome provs j = .error f → Rel j (P.fatalSynth t b)) :
    ∀ (l : List Nat) (i : Nat) (acc : Accum),
      List.Forall₂ Rel acc.histCalls acc.results →
      List.Forall₂ Rel (runLoop P provs cancel delay l i acc).histCalls
        (runLoop P provs cancel delay l i acc).results := by
  intro l
  induction l with
  | nil => intro i acc hacc; exact hacc
  | cons t rest ih =>
    intro i acc hacc
    have happend : ∀ (r : AiAnalysisResult), Rel i r →
        List.Forall₂ Rel (acc.histCalls ++ [i]) (acc.results ++ [r]) := by
      intro r hr
      exact List.rel_append hacc (List.forall₂_cons.mpr ⟨hr, List.Forall₂.nil⟩)
    rw [runLoop]
    split
    · exact hacc
    · rcases h : itemOutcome provs i with f | p <;> simp only [h]
      · rcases hcls : P.classify f.status f.message with _ | _ | _ <;> simp only [hcls]
        case fatalAuth => exact happend _ (Hfat i t f false h)
        case fatalRate => exact happend _ (Hfat i t f true h)
        case recoverable =>
          refine ih (i + 1) _ ?_
          rw [stepThrottle_histCalls, stepThrottle_results]
          exact happend _ (Hrec i t f h)
      · refine ih (i + 1) _ ?_
        rw [stepThrottle_histCalls, stepThrottle_results]
        exact happend _ (Hok i t p h)

/-- Unfolding of a loop iteration whose failure classifies fatal:
synthetic pushed, immediate return, no progress update, no throttle. -/
theorem runLoop_fatal_step (P : DriverParams) (provs : Providers) (cancel : Nat → Bool)
    (delay : ℚ) (t : Nat) (rest : List Nat) (i : Nat) (acc : Accum) (f : Failure) (b : Bool)
    (hc : cancel (2 * i) = false) (h : itemOutcome provs i = .error f)
    (hcls : P.classify f.status f.message = (if b then .fatalRate else .fatalAuth)) :
    runLoop P provs cancel delay (t :: rest) i acc =
      { toAccum :=
          { acc with
            histCalls := acc.histCalls ++ [i],
            anaCalls := acc.anaCalls ++ anaCallsAt provs i,
            results := acc.results ++ [P.fatalSynth t b],
            errorCount := acc.errorCount + 1 },
        status := if b then .stoppedRate else .stoppedAuth } := by
  cases b <;>
    · rw [runLoop]
      simp [hc, h, hcls]

/-- Unfolding of a loop iteration at whose top checkpoint a stop request is
observed. -/
theorem runLoop_cancel_step (P : DriverParams) (provs : Providers) (cancel : Nat → Bool)
    (delay : ℚ) (t : Nat) (rest : List Nat) (i : Nat) (acc : Accum)
    (hc : cancel (2 * i) = true) :
    runLoop P provs cancel delay (t :: rest) i acc =
      { toAccum := acc, status := .cancelled } := by
  rw [runLoop]
  simp [hc]

/-- part_000: when the probe is skipped (no override) or passes, the run is
the loop over all tickets, with a probe recorded iff an override was set. -/
theorem runModal0_run (cfg : AiConfig) (provs : Providers) (cancel : Nat → Bool)
    (items : List Nat) (h : cfg.apiKey = "" ∨ provs.validKey = true) :
    runModal0 cfg provs cancel items =
      runLoop modal0Params provs cancel (throttleInterval cfg.rpm) items 0
        { probes := if cfg.apiKey == "" then 0 else 1 } := by
  unfold runModal0 runBatch
  rcases h with h | h
  · simp [modal0Params, h]
  · by_cases hk : cfg.apiKey = "" <;> simp [modal0Params, h, hk]

/-- part_000: no override means no probe at all; the loop is entered even
when the ambient credentials are invalid. -/
theorem runModal0_reject (cfg : AiConfig) (provs : Providers) (cancel : Nat → Bool)
    (items : List Nat) (h1 : cfg.apiKey ≠ "") (h2 : provs.validKey = false) :
    runModal0 cfg provs cancel items = { toAccum := { probes := 1 }, status := .rejected } := by
  unfold runModal0 runBatch
  simp [modal0Params, h1, h2]

/-- part_001: the probe passes, so the run is the loop over the first 50
tickets with one probe recorded. -/
theorem runModal1_run (cfg : AiConfig) (provs : Providers) (cancel : Nat → Bool)
    (items : List Nat) (h : provs.validKey = true) :
    runModal1 cfg provs cancel items =
      runLoop modal1Params provs cancel (throttleInterval cfg.rpm) (items.take 50) 0
        { probes := 1 } := by
  unfold runModal1 runBatch
  simp [modal1Params, h]

/-- part_001: an invalid key is rejected by the unconditional probe before
any loop iteration. -/
theorem runModal1_reject (cfg : AiConfig) (provs : Providers) (cancel : Nat → Bool)
    (items : List Nat) (h : provs.validKey = false) :
    runModal1 cfg provs cancel items = { toAccum := { probes := 1 }, status := .rejected } := by
  unfold runModal1 runBatch
  simp [modal1Params, h]

/-- AiAnalysisModal.tsx: same probe discipline as part_001. -/
theorem runModal2_run (cfg : AiConfig) (provs : Providers) (cancel : Nat → Bool)
    (items : List Nat) (h : provs.validKey = true) :
    runModal2 cfg provs cancel items =
      runLoop modal2Params provs cancel (throttleInterval cfg.rpm) (items.take 50) 0
        { probes := 1 } := by
  unfold runModal2 runBatch
  simp [modal2Params, h]

/-! ## Small helper lemmas -/

theorem anaCallsAt_mem (provs : Providers) (i x : Nat) (hx : x ∈ anaCallsAt provs i) :
    x = i := by
  unfold anaCallsAt at hx
  rcases h : provs.hist i with f | u <;> rw [h] at hx <;> simp at hx
  exact hx

theorem orUnknown_ne_empty (m : String) : orUnknown m ≠ "" := by
  unfold orUnknown
  split
  · decide
  · next h => simpa using h

/-- Any full run only records waits of the shape
`max(0, delay - elapsed)` at their own boundary. -/
theorem runBatch_waits_shape (P : DriverParams) (cfg : AiConfig) (provs : Providers)
    (cancel : Nat → Bool) (items : List Nat) :
    ∀ p ∈ (runBatch P cfg provs cancel items).waits,
      p.2 = waitFor (throttleInterval cfg.rpm) (provs.elapsed p.1) := by
  intro p hp
  unfold runBatch at hp
  cases hb : (P.probeRequired || cfg.apiKey != "") && !provs.validKey
  case true =>
    simp only [hb, if_true] at hp
    simp at hp
  case false =>
    simp only [hb, Bool.false_eq_true, if_false] at hp
    rcases hl : P.limit with _ | n <;> simp only [hl] at hp <;>
      exact runLoop_waits_shape P provs cancel (throttleInterval cfg.rpm) _ 0 _
        (by intro q hq; simp at hq) p hp

/-- Any full run pairs each dispatched iteration with the one result the
loop emitted for it. -/
theorem runBatch_pairs (P : DriverParams) (cfg : AiConfig) (provs : Providers)
    (cancel : Nat → Bool) (items : List Nat) (Rel : Nat → AiAnalysisResult → Prop)
    (Hok : ∀ j t p, itemOutcome provs j = .ok p → Rel j (mkSuccess t p))
    (Hrec : ∀ j t f, itemOutcome provs j = .error f → Rel j (P.recovSynth t f.message))
    (Hfat : ∀ j t f b, itemOutcome provs j = .error f → Rel j (P.fatalSynth t b)) :
    List.Forall₂ Rel (runBatch P cfg provs cancel items).histCalls
      (runBatch P cfg provs cancel items).results := by
  unfold runBatch
  cases hb : (P.probeRequired || cfg.apiKey != "") && !provs.validKey
  case true =>
    simp only [hb, if_true]
    exact List.Forall₂.nil
  case false =>
    simp only [hb, Bool.false_eq_true, if_false]
    rcases hl : P.limit with _ | n <;> simp only [hl] <;>
      exact runLoop_pairs P provs cancel (throttleInterval cfg.rpm) Rel Hok Hrec Hfat _ 0 _
        List.Forall₂.nil

/-- Dispatched iterations and emitted results are in bijection: an item,
once dispatched, always completes with exactly one recorded result. -/
theorem runBatch_sink_length (P : DriverParams) (cfg : AiConfig) (provs : Providers)
    (cancel : Nat → Bool) (items : List Nat) :
    (runBatch P cfg provs cancel items).results.length =
      (runBatch P cfg provs cancel items).histCalls.length := by
  have h := runBatch_pairs P cfg provs cancel items (fun _ _ => True)
    (fun _ _ _ _ => trivial) (fun _ _ _ _ => trivial) (fun _ _ _ _ _ => trivial)
  exact h.length_eq.symm

/-- Full characterisation of a loop run that hits a fatal classification at
position `k` after `k` non-fatal iterations, with no stop request. -/
theorem runLoop_fatal_scenario (P : DriverParams) (provs : Providers) (cancel : Nat → Bool)
    (delay : ℚ) (items : List Nat) (acc0 : Accum) (k : Nat) (f : Failure) (b : Bool)
    (hk : k < items.length)
    (hnc : ∀ j, cancel j = false)
    (hpre : ∀ j, j < k → nonFatalOutcome P (itemOutcome provs j))
    (hf : itemOutcome provs k = .error f)
    (hcls : P.classify f.status f.message = (if b then .fatalRate else .fatalAuth)) :
    runLoop P provs cancel delay items 0 acc0 =
      { toAccum :=
          { results := acc0.results ++ (emitList P provs 0 (items.take k) ++ [P.fatalSynth items[k] b]),
            processedCount := acc0.processedCount + okCount provs 0 k,
            errorCount := acc0.errorCount + errCount provs 0 k + 1,
            progress := if k = 0 then acc0.progress else k,
            probes := acc0.probes,
            histCalls := acc0.histCalls ++ (List.range' 0 k ++ [k]),
            anaCalls := acc0.anaCalls ++ (anaListUpTo provs 0 k ++ anaCallsAt provs k),
            waits := acc0.waits ++ waitsList provs delay 0 k },
        status := if b then .stoppedRate else .stoppedAuth } := by
  have hadv := runLoop_advance P provs cancel delay k items 0 acc0 (le_of_lt hk)
    (fun j _ => hnc _) (fun j _ => hnc _) (fun j hj => by simpa using hpre j hj)
  rw [hadv, List.drop_eq_getElem_cons hk]
  rw [runLoop_fatal_step P provs cancel delay _ _ _ _ f b (hnc _)
    (by simpa using hf) hcls]
  have hmin : min k (items.length - 1) = k := by omega
  simp [hmin, List.append_assoc]

/-! ## C1 — rate-limit classification halts the batch -/

/-- C1 (amended): in the part_000 batch loop, when processing item `k`
fails with status 429 or a message containing (case-insensitively) any of
"429", "quota", "too many requests", "resource exhausted", the failure is
fatal rate-limited: a synthetic failure result tagged "429 Quota Exceeded"
is emitted for item `k`, the batch halts immediately (no provider call
beyond item `k` and no further throttle sleep), and the terminal state
surfaces the rate-limit stop.  ("rate limit" itself is not among the
matched substrings, and the AiAnalysisModal.tsx copy has no rate-limit
classification at all — see the counterexample.) -/
theorem C1_rate_fatal (cfg : AiConfig) (provs : Providers) (cancel : Nat → Bool)
    (items : List Nat) (k : Nat) (f : Failure)
    (hprobe : cfg.apiKey = "" ∨ provs.validKey = true)
    (hnc : ∀ j, cancel j = false)
    (hk : k < items.length)
    (hpre : ∀ j, j < k → nonFatalOutcome modal0Params (itemOutcome provs j))
    (hf : itemOutcome provs k = .error f)
    (hrate : isRateSignal f.status f.message = true) :
    (runModal0 cfg provs cancel items).status = .stoppedRate ∧
    (runModal0 cfg provs cancel items).results.length = k + 1 ∧
    (runModal0 cfg provs cancel items).results[k]? = some (modal0Fatal items[k] true) ∧
    (runModal0 cfg provs cancel items).histCalls = List.range (k + 1) ∧
    (runModal0 cfg provs cancel items).waits.length = k := by
  have hcls : modal0Params.classify f.status f.message =
      (if true then Classification.fatalRate else .fatalAuth) := by
    show classifyV1 f.status f.message = _
    unfold classifyV1
    rw [hrate]
    simp
  rw [runModal0_run cfg provs cancel items hprobe,
    runLoop_fatal_scenario modal0Params provs cancel (throttleInterval cfg.rpm) items _ k f
      true hk hnc hpre hf hcls]
  have hlen : (emitList modal0Params provs 0 (items.take k)).length = k := by
    rw [emitList_length, List.length_take]
    omega
  refine ⟨rfl, ?_, ?_, ?_, ?_⟩
  · simp [hlen]
  · show ((emitList modal0Params provs 0 (items.take k) ++ [modal0Fatal items[k] true]))[k]? =
      some (modal0Fatal items[k] true)
    have h := List.getElem?_concat_length (emitList modal0Params provs 0 (items.take k))
      (modal0Fatal items[k] true)
    rw [hlen] at h
    exact h
  · show List.range' 0 k ++ [k] = List.range (k + 1)
    rw [List.range_eq_range', List.range'_concat]
    simp
  · show (waitsList provs (throttleInterval cfg.rpm) 0 k).length = k
    exact waitsList_length provs _ k 0

/-- C1 counterexample: part_000 classifies a failure whose message contains
"rate limit" (and no matched substring) as recoverable — the batch
completes instead of halting with the rate-limit reason — and the
AiAnalysisModal.tsx copy does not halt even on a status-429 "quota
exceeded" failure. -/
theorem C1_counterexample :
    (runModal0 cfgDefault (provsFailAt 0 500 "rate limit") noStop [7]).status = .completed ∧
    (runModal0 cfgDefault (provsFailAt 0 500 "rate limit") noStop [7]).status ≠ .stoppedRate ∧
    (runModal0 cfgDefault (provsFailAt 0 500 "rate limit") noStop [7]).results.length = 1 ∧
    (runModal2 cfgDefault (provsFailAt 0 429 "quota exceeded") noStop [3, 4]).status = .completed ∧
    (runModal2 cfgDefault (provsFailAt 0 429 "quota exceeded") noStop [3, 4]).histCalls = [0, 1] := by
  refine ⟨?_, ?_, ?_, ?_, ?_⟩ <;> decide

/-- C1 witness: three tickets, the second fails with status 429. -/
theorem C1_witness :
    (runModal0 cfgDefault (provsFailAt 1 429 "") noStop [5, 6, 7]).status = .stoppedRate ∧
    (runModal0 cfgDefault (provsFailAt 1 429 "") noStop [5, 6, 7]).results.length = 2 ∧
    (runModal0 cfgDefault (provsFailAt 1 429 "") noStop [5, 6, 7]).results[1]? =
      some (modal0Fatal 6 true) ∧
    (runModal0 cfgDefault (provsFailAt 1 429 "") noStop [5, 6, 7]).histCalls = List.range 2 ∧
    (runModal0 cfgDefault (provsFailAt 1 429 "") noStop [5, 6, 7]).waits.length = 1 := by
  have hpre : ∀ j, j < 1 → nonFatalOutcome modal0Params
      (itemOutcome (provsFailAt 1 429 "") j) := by
    intro j hj f hf
    have hj0 : j = 0 := by omega
    subst hj0
    simp [itemOutcome, provsFailAt] at hf
  exact C1_rate_fatal cfgDefault (provsFailAt 1 429 "") noStop [5, 6, 7] 1 ⟨429, ""⟩
    (Or.inl rfl) (fun j => rfl) (by decide) hpre rfl (by decide)

/-! ## C2 — auth failure stops the batch -/

/-- C2 (amended): in the part_000 batch loop, when item `k` (0-indexed,
`k < N`) fails with an auth signal (status 401, or lowercased message
containing "401", "api key" or "unauthorized") that does not also match a
rate-limit signal, then exactly `k + 1` results have been emitted (one per
item processed before `k`, plus the synthetic failure for item `k`
itself), no History or Analysis Provider call is made for any item after
`k`, and the run stops with the auth-failed status.  (When the failure
also matches a rate-limit signal the classifier's ternary makes the stop
rate-limited instead, and the AiAnalysisModal.tsx copy reacts only to the
raw, case-sensitive substrings "401" / "API key" — see the
counterexample.) -/
theorem C2_auth_fatal (cfg : AiConfig) (provs : Providers) (cancel : Nat → Bool)
    (items : List Nat) (k : Nat) (f : Failure)
    (hprobe : cfg.apiKey = "" ∨ provs.validKey = true)
    (hnc : ∀ j, cancel j = false)
    (hk : k < items.length)
    (hpre : ∀ j, j < k → nonFatalOutcome modal0Params (itemOutcome provs j))
    (hf : itemOutcome provs k = .error f)
    (hauth : isAuthSignal f.status f.message = true)
    (hnorate : isRateSignal f.status f.message = false) :
    (runModal0 cfg provs cancel items).status = .stoppedAuth ∧
    (runModal0 cfg provs cancel items).results.length = k + 1 ∧
    (runModal0 cfg provs cancel items).results[k]? = some (modal0Fatal items[k] false) ∧
    (runModal0 cfg provs cancel items).histCalls = List.range (k + 1) ∧
    (∀ x ∈ (runModal0 cfg provs cancel items).anaCalls, x ≤ k) := by
  have hcls : modal0Params.classify f.status f.message =
      (if false then Classification.fatalRate else .fatalAuth) := by
    show classifyV1 f.status f.message = _
    unfold classifyV1
    rw [hauth, hnorate]
    simp
  rw [runModal0_run cfg provs cancel items hprobe,
    runLoop_fatal_scenario modal0Params provs cancel (throttleInterval cfg.rpm) items _ k f
      false hk hnc hpre hf hcls]
  have hlen : (emitList modal0Params provs 0 (items.take k)).length = k := by
    rw [emitList_length, List.length_take]
    omega
  refine ⟨rfl, ?_, ?_, ?_, ?_⟩
  · simp [hlen]
  · show ((emitList modal0Params provs 0 (items.take k) ++ [modal0Fatal items[k] false]))[k]? =
      some (modal0Fatal items[k] false)
    have h := List.getElem?_concat_length (emitList modal0Params provs 0 (items.take k))
      (modal0Fatal items[k] false)
    rw [hlen] at h
    exact h
  · show List.range' 0 k ++ [k] = List.range (k + 1)
    rw [List.range_eq_range', List.range'_concat]
    simp
  · show ∀ x ∈ anaListUpTo provs 0 k ++ anaCallsAt provs k, x ≤ k
    intro x hx
    rcases List.mem_append.mp hx with hx | hx
    · have := anaListUpTo_mem_lt provs k 0 x hx
      omega
    · rw [anaCallsAt_mem provs k x hx]

/-- C2 counterexample: item 0 of a 2-item part_000 run fails with status
401 and message "quota".  This is an auth signal, yet the actual run emits
1 result (the claim's "exactly k = 0 results" is wrong: the synthetic
failure is pushed to the sink) and the status is the rate-limited stop,
not AuthFailed (the ternary favours the rate match).  The
AiAnalysisModal.tsx copy does not stop at all on a 401/"Unauthorized
request" failure. -/
theorem C2_counterexample :
    (runModal0 cfgDefault (provsFailAt 0 401 "quota") noStop [10, 11]).results.length = 1 ∧
    (runModal0 cfgDefault (provsFailAt 0 401 "quota") noStop [10, 11]).results.length ≠ 0 ∧
    (runModal0 cfgDefault (provsFailAt 0 401 "quota") noStop [10, 11]).status = .stoppedRate ∧
    (runModal0 cfgDefault (provsFailAt 0 401 "quota") noStop [10, 11]).status ≠ .stoppedAuth ∧
    (runModal2 cfgDefault (provsFailAt 0 401 "Unauthorized request") noStop [3]).status =
      .completed := by
  refine ⟨?_, ?_, ?_, ?_, ?_⟩ <;> decide

/-- C2 witness: three tickets, the second fails with a pure 401 signal. -/
theorem C2_witness :
    (runModal0 cfgDefault (provsFailAt 1 401 "") noStop [5, 6, 7]).status = .stoppedAuth ∧
    (runModal0 cfgDefault (provsFailAt 1 401 "") noStop [5, 6, 7]).results.length = 2 ∧
    (runModal0 cfgDefault (provsFailAt 1 401 "") noStop [5, 6, 7]).results[1]? =
      some (modal0Fatal 6 false) ∧
    (runModal0 cfgDefault (provsFailAt 1 401 "") noStop [5, 6, 7]).histCalls = List.range 2 ∧
    (∀ x ∈ (runModal0 cfgDefault (provsFailAt 1 401 "") noStop [5, 6, 7]).anaCalls, x ≤ 1) := by
  have hpre : ∀ j, j < 1 → nonFatalOutcome modal0Params
      (itemOutcome (provsFailAt 1 401 "") j) := by
    intro j hj f hf
    have hj0 : j = 0 := by omega
    subst hj0
    simp [itemOutcome, provsFailAt] at hf
  exact C2_auth_fatal cfgDefault (provsFailAt 1 401 "") noStop [5, 6, 7] 1 ⟨401, ""⟩
    (Or.inl rfl) (fun j => rfl) (by decide) hpre rfl (by decide) (by decide)

/-! ## C3 — fatal classification: synthetic result, immediate stop -/

/-- C3 (amended): in the part_000 and part_001 loops, whenever a fatal
classification (auth or rate-limit) is produced for item `k`, a synthetic
failure result tagged with the specific reason is pushed as the item's
result, the run stops with the corresponding status and returns
immediately — no throttle sleep after item `k` and no further items
dispatched.  The fatal path does NOT increment the progress counters: the
`break` runs before `setProgress(i + 1)`, and part_000's `processedCount`
counts successes only, so both stay at their pre-item values. -/
theorem C3_fatal_immediate_stop (cfg : AiConfig) (provs : Providers) (cancel : Nat → Bool)
    (items : List Nat) (k : Nat) (f : Failure) (b : Bool)
    (hvalid : provs.validKey = true)
    (hnc : ∀ j, cancel j = false)
    (hk : k < items.length)
    (hlen50 : items.length ≤ 50)
    (hpre : ∀ j, j < k → nonFatalOutcome modal0Params (itemOutcome provs j))
    (hf : itemOutcome provs k = .error f)
    (hcls : classifyV1 f.status f.message = (if b then .fatalRate else .fatalAuth)) :
    ((runModal0 cfg provs cancel items).status =
      (if b then BatchStatus.stoppedRate else .stoppedAuth) ∧
     (runModal0 cfg provs cancel items).results[k]? = some (modal0Fatal items[k] b) ∧
     (runModal0 cfg provs cancel items).results.length = k + 1 ∧
     (runModal0 cfg provs cancel items).histCalls = List.range (k + 1) ∧
     (runModal0 cfg provs cancel items).waits =
       waitsList provs (throttleInterval cfg.rpm) 0 k ∧
     (runModal0 cfg provs cancel items).progress = k ∧
     (runModal0 cfg provs cancel items).processedCount = okCount provs 0 k) ∧
    ((runModal1 cfg provs cancel items).status =
      (if b then BatchStatus.stoppedRate else .stoppedAuth) ∧
     (runModal1 cfg provs cancel items).results[k]? = some (modal1Fatal items[k] b) ∧
     (runModal1 cfg provs cancel items).results.length = k + 1 ∧
     (runModal1 cfg provs cancel items).histCalls = List.range (k + 1) ∧
     (runModal1 cfg provs cancel items).waits =
       waitsList provs (throttleInterval cfg.rpm) 0 k ∧
     (runModal1 cfg provs cancel items).progress = k) := by
  constructor
  · rw [runModal0_run cfg provs cancel items (Or.inr hvalid),
      runLoop_fatal_scenario modal0Params provs cancel (throttleInterval cfg.rpm) items _ k f
        b hk hnc hpre hf hcls]
    have hlen : (emitList modal0Params provs 0 (items.take k)).length = k := by
      rw [emitList_length, List.length_take]
      omega
    refine ⟨rfl, ?_, ?_, ?_, rfl, ?_, ?_⟩
    · show ((emitList modal0Params provs 0 (items.take k) ++ [modal0Fatal items[k] b]))[k]? =
        some (modal0Fatal items[k] b)
      have h := List.getElem?_concat_length (emitList modal0Params provs 0 (items.take k))
        (modal0Fatal items[k] b)
      rw [hlen] at h
      exact h
    · simp [hlen]
    · show List.range' 0 k ++ [k] = List.range (k + 1)
      rw [List.range_eq_range', List.range'_concat]
      simp
    · show (if k = 0 then 0 else k) = k
      split <;> omega
    · show 0 + okCount provs 0 k = okCount provs 0 k
      omega
  · rw [runModal1_run cfg provs cancel items hvalid, List.take_of_length_le hlen50,
      runLoop_fatal_scenario modal1Params provs cancel (throttleInterval cfg.rpm) items _ k f
        b hk hnc (fun j hj => hpre j hj) hf hcls]
    have hlen : (emitList modal1Params provs 0 (items.take k)).length = k := by
      rw [emitList_length, List.length_take]
      omega
    refine ⟨rfl, ?_, ?_, ?_, rfl, ?_⟩
    · show ((emitList modal1Params provs 0 (items.take k) ++ [modal1Fatal items[k] b]))[k]? =
        some (modal1Fatal items[k] b)
      have h := List.getElem?_concat_length (emitList modal1Params provs 0 (items.take k))
        (modal1Fatal items[k] b)
      rw [hlen] at h
      exact h
    · simp [hlen]
    · show List.range' 0 k ++ [k] = List.range (k + 1)
      rw [List.range_eq_range', List.range'_concat]
      simp
    · show (if k = 0 then 0 else k) = k
      split <;> omega

/-- C3 counterexample: item 0 of a 2-item part_000 run fails fatally with
status 401.  The synthetic result is pushed and the batch stops, but
`processedCount` and `progress` both remain 0 — the claim's "increments
processedCount" does not happen on the fatal path. -/
theorem C3_counterexample :
    (runModal0 cfgDefault (provsFailAt 0 401 "") noStop [5, 6]).status = .stoppedAuth ∧
    (runModal0 cfgDefault (provsFailAt 0 401 "") noStop [5, 6]).results.length = 1 ∧
    (runModal0 cfgDefault (provsFailAt 0 401 "") noStop [5, 6]).processedCount = 0 ∧
    (runModal0 cfgDefault (provsFailAt 0 401 "") noStop [5, 6]).progress = 0 := by
  refine ⟨?_, ?_, ?_, ?_⟩ <;> decide

/-- C3 witness: two tickets, the first fails with a message-shaped auth
signal. -/
theorem C3_witness :
    ((runModal0 cfgDefault (provsFailAt 0 0 "API key rejected") noStop [5, 6]).status =
      (if false then BatchStatus.stoppedRate else .stoppedAuth) ∧
     (runModal0 cfgDefault (provsFailAt 0 0 "API key rejected") noStop [5, 6]).results[0]? =
       some (modal0Fatal 5 false) ∧
     (runModal0 cfgDefault (provsFailAt 0 0 "API key rejected") noStop [5, 6]).results.length = 1 ∧
     (runModal0 cfgDefault (provsFailAt 0 0 "API key rejected") noStop [5, 6]).histCalls =
       List.range 1 ∧
     (runModal0 cfgDefault (provsFailAt 0 0 "API key rejected") noStop [5, 6]).waits =
       waitsList (provsFailAt 0 0 "API key rejected") (throttleInterval cfgDefault.rpm) 0 0 ∧
     (runModal0 cfgDefault (provsFailAt 0 0 "API key rejected") noStop [5, 6]).progress = 0 ∧
     (runModal0 cfgDefault (provsFailAt 0 0 "API key rejected") noStop [5, 6]).processedCount =
       okCount (provsFailAt 0 0 "API key rejected") 0 0) ∧
    ((runModal1 cfgDefault (provsFailAt 0 0 "API key rejected") noStop [5, 6]).status =
      (if false then BatchStatus.stoppedRate else .stoppedAuth) ∧
     (runModal1 cfgDefault (provsFailAt 0 0 "API key rejected") noStop [5, 6]).results[0]? =
       some (modal1Fatal 5 false) ∧
     (runModal1 cfgDefault (provsFailAt 0 0 "API key rejected") noStop [5, 6]).results.length = 1 ∧
     (runModal1 cfgDefault (provsFailAt 0 0 "API key rejected") noStop [5, 6]).histCalls =
       List.range 1 ∧
     (runModal1 cfgDefault (provsFailAt 0 0 "API key rejected") noStop [5, 6]).waits =
       waitsList (provsFailAt 0 0 "API key rejected") (throttleInterval cfgDefault.rpm) 0 0 ∧
     (runModal1 cfgDefault (provsFailAt 0 0 "API key rejected") noStop [5, 6]).progress = 0) :=
  C3_fatal_immediate_stop cfgDefault (provsFailAt 0 0 "API key rejected") noStop [5, 6] 0
    ⟨0, "API key rejected"⟩ false rfl (fun j => rfl) (by decide) (by decide)
    (fun j hj => absurd hj (by omega)) rfl (by decide)

/-- Full characterisation of a loop run for which a stop request is first
observed at the top-of-iteration checkpoint of item `k` (the request may
already have arrived during item `k - 1`'s calls or throttle sleep — that
item still completes; only the scheduling of item `k` is prevented). -/
theorem runLoop_cancel_scenario (P : DriverParams) (provs : Providers) (cancel : Nat → Bool)
    (delay : ℚ) (items : List Nat) (acc0 : Accum) (k : Nat)
    (hk : k < items.length)
    (hbefore : ∀ j, j < 2 * k → cancel j = false)
    (hat : cancel (2 * k) = true)
    (hpre : ∀ j, j < k → nonFatalOutcome P (itemOutcome provs j)) :
    (runLoop P provs cancel delay items 0 acc0).status = .cancelled ∧
    (runLoop P provs cancel delay items 0 acc0).results =
      acc0.results ++ emitList P provs 0 (items.take k) ∧
    (runLoop P provs cancel delay items 0 acc0).histCalls =
      acc0.histCalls ++ List.range' 0 k ∧
    (runLoop P provs cancel delay items 0 acc0).anaCalls =
      acc0.anaCalls ++ anaListUpTo provs 0 k := by
  have hadv := runLoop_advance P provs cancel delay k items 0 acc0 (le_of_lt hk)
    (fun j hj => hbefore _ (by omega)) (fun j hj => hbefore _ (by omega))
    (fun j hj => by simpa using hpre j hj)
  rw [hadv, List.drop_eq_getElem_cons hk]
  rw [runLoop_cancel_step P provs cancel delay _ _ _ _ (by simpa using hat)]
  exact ⟨rfl, rfl, rfl, rfl⟩

/-! ## C6 — cooperative cancellation -/

/-- C6: in the part_000 and part_001 loops, when the stop request is first
observed at the iteration boundary after `k` completed items (the flag is
read only at the top-of-iteration checkpoint `2*i` and the pre-sleep
checkpoint `2*i + 1`), exactly `k` results have been emitted, no History
or Analysis Provider call is made beyond those `k` items, and the run ends
in the cancelled state.  The hypotheses leave the pre-sleep checkpoint of
item `k - 1` unconstrained: a request arriving while item `k - 1` is in
flight does not abort it — its calls complete and its result is still
emitted.  The last conjunct states the no-abort discipline for every
cancellation pattern whatsoever: dispatched items and emitted results
always stay in bijection. -/
theorem C6_cancellation (cfg : AiConfig) (provs : Providers) (cancel : Nat → Bool)
    (items : List Nat) (k : Nat)
    (hvalid : provs.validKey = true)
    (hk : k < items.length)
    (hlen50 : items.length ≤ 50)
    (hbefore : ∀ j, j < 2 * k → cancel j = false)
    (hat : cancel (2 * k) = true)
    (hpre : ∀ j, j < k → nonFatalOutcome modal0Params (itemOutcome provs j)) :
    ((runModal0 cfg provs cancel items).status = .cancelled ∧
     (runModal0 cfg provs cancel items).results.length = k ∧
     (runModal0 cfg provs cancel items).histCalls = List.range k ∧
     (∀ x ∈ (runModal0 cfg provs cancel items).anaCalls, x < k)) ∧
    ((runModal1 cfg provs cancel items).status = .cancelled ∧
     (runModal1 cfg provs cancel items).results.length = k ∧
     (runModal1 cfg provs cancel items).histCalls = List.range k) ∧
    (∀ cancelAny : Nat → Bool,
      (runModal0 cfg provs cancelAny items).results.length =
        (runModal0 cfg provs cancelAny items).histCalls.length ∧
      (runModal1 cfg provs cancelAny items).results.length =
        (runModal1 cfg provs cancelAny items).histCalls.length) := by
  refine ⟨?_, ?_, ?_⟩
  · rw [runModal0_run cfg provs cancel items (Or.inr hvalid)]
    obtain ⟨hs, hr, hh, ha⟩ := runLoop_cancel_scenario modal0Params provs cancel
      (throttleInterval cfg.rpm) items _ k hk hbefore hat hpre
    refine ⟨hs, ?_, ?_, ?_⟩
    · rw [hr]
      have : (emitList modal0Params provs 0 (items.take k)).length = k := by
        rw [emitList_length, List.length_take]
        omega
      simpa using this
    · rw [hh, List.range_eq_range']
      simp
    · intro x hx
      rw [ha] at hx
      simp only [List.nil_append] at hx
      have := anaListUpTo_mem_lt provs k 0 x (by simpa using hx)
      omega
  · rw [runModal1_run cfg provs cancel items hvalid, List.take_of_length_le hlen50]
    obtain ⟨hs, hr, hh, _⟩ := runLoop_cancel_scenario modal1Params provs cancel
      (throttleInterval cfg.rpm) items _ k hk hbefore hat (fun j hj => hpre j hj)
    refine ⟨hs, ?_, ?_⟩
    · rw [hr]
      have : (emitList modal1Params provs 0 (items.take k)).length = k := by
        rw [emitList_length, List.length_take]
        omega
      simpa using this
    · rw [hh, List.range_eq_range']
      simp
  · intro cancelAny
    exact ⟨runBatch_sink_length modal0Params cfg provs cancelAny items,
      runBatch_sink_length modal1Params cfg provs cancelAny items⟩

/-- C6 witness: stop requested between items 1 and 2 of a 3-ticket run. -/
theorem C6_witness :
    ((runModal0 cfgDefault provsAllOk (stopAt 2) [5, 6, 7]).status = .cancelled ∧
     (runModal0 cfgDefault provsAllOk (stopAt 2) [5, 6, 7]).results.length = 1 ∧
     (runModal0 cfgDefault provsAllOk (stopAt 2) [5, 6, 7]).histCalls = List.range 1 ∧
     (∀ x ∈ (runModal0 cfgDefault provsAllOk (stopAt 2) [5, 6, 7]).anaCalls, x < 1)) ∧
    ((runModal1 cfgDefault provsAllOk (stopAt 2) [5, 6, 7]).status = .cancelled ∧
     (runModal1 cfgDefault provsAllOk (stopAt 2) [5, 6, 7]).results.length = 1 ∧
     (runModal1 cfgDefault provsAllOk (stopAt 2) [5, 6, 7]).histCalls = List.range 1) ∧
    (∀ cancelAny : Nat → Bool,
      (runModal0 cfgDefault provsAllOk cancelAny [5, 6, 7]).results.length =
        (runModal0 cfgDefault provsAllOk cancelAny [5, 6, 7]).histCalls.length ∧
      (runModal1 cfgDefault provsAllOk cancelAny [5, 6, 7]).results.length =
        (runModal1 cfgDefault provsAllOk cancelAny [5, 6, 7]).histCalls.length) := by
  have hbefore : ∀ j, j < 2 * 1 → stopAt 2 j = false := by
    intro j hj
    simp only [stopAt, decide_eq_false_iff_not]
    omega
  have hpre : ∀ j, j < 1 → nonFatalOutcome modal0Params (itemOutcome provsAllOk j) := by
    intro j hj f hf
    simp [itemOutcome, provsAllOk] at hf
  exact C6_cancellation cfgDefault provsAllOk (stopAt 2) [5, 6, 7] 1 rfl (by decide)
    (by decide) hbefore rfl hpre

/-- Full characterisation of a run that processes every item without a
stop request or a fatal classification. -/
theorem runLoop_complete_scenario (P : DriverParams) (provs : Providers)
    (cancel : Nat → Bool) (delay : ℚ) (items : List Nat) (acc0 : Accum)
    (hnc : ∀ j, cancel j = false)
    (hpre : ∀ j, j < items.length → nonFatalOutcome P (itemOutcome provs j)) :
    (runLoop P provs cancel delay items 0 acc0).status = .completed ∧
    (runLoop P provs cancel delay items 0 acc0).results =
      acc0.results ++ emitList P provs 0 items ∧
    (runLoop P provs cancel delay items 0 acc0).processedCount =
      acc0.processedCount + okCount provs 0 items.length ∧
    (runLoop P provs cancel delay items 0 acc0).progress =
      (if items.length = 0 then acc0.progress else items.length) ∧
    (runLoop P provs cancel delay items 0 acc0).histCalls =
      acc0.histCalls ++ List.range' 0 items.length := by
  have hadv := runLoop_advance P provs cancel delay items.length items 0 acc0 le_rfl
    (fun j _ => hnc _) (fun j _ => hnc _) (fun j hj => by simpa using hpre j hj)
  rw [hadv, List.drop_length, runLoop]
  simp [List.take_length]

theorem okCount_all_ok (provs : Providers) :
    ∀ (n i : Nat), (∀ j, i ≤ j → j < i + n → exceptOk (itemOutcome provs j) = true) →
      okCount provs i n = n := by
  intro n
  induction n with
  | zero => intro i _; rfl
  | succ n ih =>
    intro i h
    unfold okCount
    rw [h i le_rfl (by omega)]
    rw [ih (i + 1) (fun j hj1 hj2 => h j (by omega) (by omega))]
    simp only [if_true]
    omega

theorem okCount_all_but_one (provs : Providers) (k : Nat) :
    ∀ (n i : Nat),
      (∀ j, i ≤ j → j < i + n → j ≠ k → exceptOk (itemOutcome provs j) = true) →
      exceptOk (itemOutcome provs k) = false → i ≤ k → k < i + n →
      okCount provs i n + 1 = n := by
  intro n
  induction n with
  | zero => intro i _ _ _ _; omega
  | succ n ih =>
    intro i h hkf h1 h2
    unfold okCount
    by_cases hik : i = k
    · subst hik
      rw [hkf]
      have hrest : okCount provs (i + 1) n = n :=
        okCount_all_ok provs n (i + 1)
          (fun j hj1 hj2 => h j (by omega) (by omega) (by omega))
      simp [hrest]
    · rw [h i le_rfl (by omega) hik]
      have := ih (i + 1) (fun j hj1 hj2 hjk => h j (by omega) (by omega) hjk) hkf
        (by omega) (by omega)
      simp only [if_true]
      omega

theorem emitFor_recov (P : DriverParams) (provs : Providers) (i tid : Nat) (f : Failure)
    (hf : itemOutcome provs i = .error f)
    (hcls : P.classify f.status f.message = .recoverable) :
    emitFor P provs i tid = P.recovSynth tid f.message := by
  unfold emitFor
  rw [hf]
  simp only [hcls]

/-! ## C7 — recoverable failure: synthetic result, processing continues -/

/-- C7 (amended): in the part_000 and part_001 loops, when item `k` of `N`
fails with a recoverable classification (and every other item succeeds), a
synthetic failure result is emitted for item `k` whose error-reason is the
failure message — or "Unknown error" when that message is empty —
processing continues through all `N` items, and the total number of
emitted results is `N`.  `progress` moves past the failed item, but
part_000's `processedCount`, which counts only successes, is not
incremented for it (final value `N - 1`). -/
theorem C7_recoverable_continues (cfg : AiConfig) (provs : Providers) (cancel : Nat → Bool)
    (items : List Nat) (k : Nat) (f : Failure)
    (hvalid : provs.validKey = true)
    (hnc : ∀ j, cancel j = false)
    (hk : k < items.length)
    (hlen50 : items.length ≤ 50)
    (hothers : ∀ j, j < items.length → j ≠ k → exceptOk (itemOutcome provs j) = true)
    (hf : itemOutcome provs k = .error f)
    (hcls : classifyV1 f.status f.message = .recoverable) :
    ((runModal0 cfg provs cancel items).status = .completed ∧
     (runModal0 cfg provs cancel items).results.length = items.length ∧
     (runModal0 cfg provs cancel items).results[k]? =
       some (modal0Recov items[k] f.message) ∧
     (modal0Recov items[k] f.message).error = some (orUnknown f.message) ∧
     (runModal0 cfg provs cancel items).progress = items.length ∧
     (runModal0 cfg provs cancel items).processedCount + 1 = items.length) ∧
    ((runModal1 cfg provs cancel items).status = .completed ∧
     (runModal1 cfg provs cancel items).results.length = items.length ∧
     (runModal1 cfg provs cancel items).results[k]? =
       some (modal1Recov items[k] f.message)) := by
  have hpre : ∀ j, j < items.length → nonFatalOutcome modal0Params (itemOutcome provs j) := by
    intro j hj g hg
    by_cases hjk : j = k
    · subst hjk
      rw [hf] at hg
      injection hg with hg
      subst hg
      exact hcls
    · have hok := hothers j hj hjk
      rw [hg] at hok
      simp [exceptOk] at hok
  have hkf : exceptOk (itemOutcome provs k) = false := by
    rw [hf]
    rfl
  have hcount : okCount provs 0 items.length + 1 = items.length :=
    okCount_all_but_one provs k items.length 0
      (fun j hj1 hj2 hjk => hothers j (by omega) hjk) hkf (by omega) (by omega)
  have hget : ∀ (Q : DriverParams), (emitList Q provs 0 items)[k]? =
      some (emitFor Q provs k (items.get ⟨k, hk⟩)) := by
    intro Q
    have := emitList_getElem Q provs items 0 k hk
    simpa using this
  constructor
  · rw [runModal0_run cfg provs cancel items (Or.inr hvalid)]
    obtain ⟨hs, hr, hp, hprog, _⟩ := runLoop_complete_scenario modal0Params provs cancel
      (throttleInterval cfg.rpm) items _ hnc hpre
    refine ⟨hs, ?_, ?_, ?_, ?_, ?_⟩
    · rw [hr]
      simp [emitList_length]
    · rw [hr]
      simp only [List.nil_append]
      rw [hget modal0Params, emitFor_recov modal0Params provs k _ f hf hcls]
      rfl
    · rfl
    · rw [hprog]
      split <;> omega
    · rw [hp]
      simpa using hcount
  · rw [runModal1_run cfg provs cancel items hvalid, List.take_of_length_le hlen50]
    obtain ⟨hs, hr, _, _, _⟩ := runLoop_complete_scenario modal1Params provs cancel
      (throttleInterval cfg.rpm) items _ hnc (fun j hj => hpre j hj)
    refine ⟨hs, ?_, ?_⟩
    · rw [hr]
      simp [emitList_length]
    · rw [hr]
      simp only [List.nil_append]
      rw [hget modal1Params, emitFor_recov modal1Params provs k _ f hf hcls]
      rfl

/-- C7 counterexample: a 1-item part_000 run whose analysis call throws
with an empty message.  The synthetic result's error-reason is the
fallback "Unknown error", not the (empty) failure message, and
`processedCount` is not incremented (it stays 0 while `progress` moves to
1). -/
theorem C7_counterexample :
    (runModal0 cfgDefault (provsFailAt 0 500 "") noStop [4]).status = .completed ∧
    (runModal0 cfgDefault (provsFailAt 0 500 "") noStop [4]).results.length = 1 ∧
    (runModal0 cfgDefault (provsFailAt 0 500 "") noStop [4]).results[0]? =
      some (modal0Recov 4 "") ∧
    (modal0Recov 4 "").error = some "Unknown error" ∧
    (modal0Recov 4 "").error ≠ some "" ∧
    (runModal0 cfgDefault (provsFailAt 0 500 "") noStop [4]).processedCount = 0 ∧
    (runModal0 cfgDefault (provsFailAt 0 500 "") noStop [4]).progress = 1 := by
  refine ⟨?_, ?_, ?_, ?_, ?_, ?_, ?_⟩ <;> decide

/-- C7 witness: three tickets, the second fails recoverably. -/
theorem C7_witness :
    ((runModal0 cfgDefault (provsFailAt 1 500 "boom") noStop [5, 6, 7]).status = .completed ∧
     (runModal0 cfgDefault (provsFailAt 1 500 "boom") noStop [5, 6, 7]).results.length = 3 ∧
     (runModal0 cfgDefault (provsFailAt 1 500 "boom") noStop [5, 6, 7]).results[1]? =
       some (modal0Recov 6 "boom") ∧
     (modal0Recov 6 "boom").error = some (orUnknown "boom") ∧
     (runModal0 cfgDefault (provsFailAt 1 500 "boom") noStop [5, 6, 7]).progress = 3 ∧
     (runModal0 cfgDefault (provsFailAt 1 500 "boom") noStop [5, 6, 7]).processedCount + 1 = 3) ∧
    ((runModal1 cfgDefault (provsFailAt 1 500 "boom") noStop [5, 6, 7]).status = .completed ∧
     (runModal1 cfgDefault (provsFailAt 1 500 "boom") noStop [5, 6, 7]).results.length = 3 ∧
     (runModal1 cfgDefault (provsFailAt 1 500 "boom") noStop [5, 6, 7]).results[1]? =
       some (modal1Recov 6 "boom")) := by
  have hothers : ∀ j, j < 3 → j ≠ 1 →
      exceptOk (itemOutcome (provsFailAt 1 500 "boom") j) = true := by
    intro j hj hj1
    interval_cases j
    · rfl
    · exact absurd rfl hj1
    · rfl
  exact C7_recoverable_continues cfgDefault (provsFailAt 1 500 "boom") noStop [5, 6, 7] 1
    ⟨500, "boom"⟩ rfl (fun j => rfl) (by decide) (by decide)
    (by simpa using hothers) rfl (by decide)

/-! ## C4 — credential probe before the loop -/

/-- C4 (amended): the part_001 driver performs exactly one credential
validation probe on every run, before the loop, and a run with invalid
credentials is rejected with no provider calls and no throttle waits (no
RPM budget consumed).  The part_000 driver performs the probe only when an
explicit non-empty key override is configured — a run relying on the
ambient environment key enters the loop unprobed — and when its probe does
run and fails, the run is likewise rejected before any item. -/
theorem C4_probe_policy (cfg : AiConfig) (provs : Providers) (cancel : Nat → Bool)
    (items : List Nat) :
    (runModal1 cfg provs cancel items).probes = 1 ∧
    (provs.validKey = false →
      runModal1 cfg provs cancel items =
        { toAccum := { probes := 1 }, status := .rejected }) ∧
    (runModal0 cfg provs cancel items).probes = (if cfg.apiKey == "" then 0 else 1) ∧
    (cfg.apiKey ≠ "" → provs.validKey = false →
      runModal0 cfg provs cancel items =
        { toAccum := { probes := 1 }, status := .rejected }) := by
  refine ⟨?_, ?_, ?_, ?_⟩
  · cases hv : provs.validKey
    · rw [runModal1_reject cfg provs cancel items hv]
    · rw [runModal1_run cfg provs cancel items hv, runLoop_probes]
  · intro hv
    exact runModal1_reject cfg provs cancel items hv
  · by_cases hk : cfg.apiKey = ""
    · rw [runModal0_run cfg provs cancel items (Or.inl hk), runLoop_probes]
    · cases hv : provs.validKey
      · rw [runModal0_reject cfg provs cancel items hk hv]
        simp [hk]
      · rw [runModal0_run cfg provs cancel items (Or.inr hv), runLoop_probes]
  · intro hk hv
    exact runModal0_reject cfg provs cancel items hk hv

/-- C4 counterexample: a part_000 run configured without an explicit key
override performs no validation probe at all — even with invalid ambient
credentials it enters the loop and dispatches item 0 instead of being
rejected. -/
theorem C4_counterexample :
    (runModal0 cfgDefault provsBadKey noStop [9]).probes = 0 ∧
    (runModal0 cfgDefault provsBadKey noStop [9]).histCalls = [0] ∧
    (runModal0 cfgDefault provsBadKey noStop [9]).status ≠ .rejected := by
  refine ⟨?_, ?_, ?_⟩ <;> decide

/-- C4 witness: invalid credentials, with and without an override. -/
theorem C4_witness :
    (runModal1 cfgDefault provsBadKey noStop [1]).probes = 1 ∧
    runModal1 cfgDefault provsBadKey noStop [1] =
      { toAccum := { probes := 1 }, status := .rejected } ∧
    (runModal0 cfgOverride provsBadKey noStop [1]).probes = 1 ∧
    runModal0 cfgOverride provsBadKey noStop [1] =
      { toAccum := { probes := 1 }, status := .rejected } := by
  obtain ⟨h1, h2, _, _⟩ := C4_probe_policy cfgDefault provsBadKey noStop [1]
  obtain ⟨_, _, h3, h4⟩ := C4_probe_policy cfgOverride provsBadKey noStop [1]
  exact ⟨h1, h2 rfl, h3.trans (by decide), h4 (by decide) rfl⟩

/-! ## C5 — throttle interval and inter-item waits -/

/-- C5: the throttle interval is `max(100, 60000 / rpm)` milliseconds for
every `rpm ≥ 1`, and every wait the part_000 loop applies between two
consecutive items equals `max(0, interval − elapsed)` for that item's
elapsed time, hence is ≥ 0 and ≤ the interval. -/
theorem C5_throttle (cfg : AiConfig) (provs : Providers) (cancel : Nat → Bool)
    (items : List Nat)
    (hrpm : 1 ≤ cfg.rpm) (helapsed : ∀ j, 0 ≤ provs.elapsed j) :
    throttleInterval cfg.rpm = max 100 (60000 / (cfg.rpm : ℚ)) ∧
    ∀ p ∈ (runModal0 cfg provs cancel items).waits,
      p.2 = waitFor (throttleInterval cfg.rpm) (provs.elapsed p.1) ∧
      0 ≤ p.2 ∧ p.2 ≤ throttleInterval cfg.rpm := by
  refine ⟨rfl, ?_⟩
  intro p hp
  have hshape := runBatch_waits_shape modal0Params cfg provs cancel items p hp
  have hd : (0 : ℚ) ≤ throttleInterval cfg.rpm :=
    le_trans (by norm_num) (le_max_left 100 (60000 / (cfg.rpm : ℚ)))
  refine ⟨hshape, ?_, ?_⟩
  · rw [hshape]
    exact le_max_left 0 _
  · rw [hshape]
    unfold waitFor
    exact max_le hd (sub_le_self _ (helapsed p.1))

/-- C5 witness: the default 30-rpm configuration over a 2-item run. -/
theorem C5_witness :
    throttleInterval cfgDefault.rpm = max 100 (60000 / (cfgDefault.rpm : ℚ)) ∧
    ∀ p ∈ (runModal0 cfgDefault provsAllOk noStop [1, 2]).waits,
      p.2 = waitFor (throttleInterval cfgDefault.rpm) (provsAllOk.elapsed p.1) ∧
      0 ≤ p.2 ∧ p.2 ≤ throttleInterval cfgDefault.rpm :=
  C5_throttle cfgDefault provsAllOk noStop [1, 2] (by decide) (fun j => le_refl 0)

/-! ## C8 — failures never escape the driver -/

/-- C8: the run function of each of the three loop copies is total (it
always returns a terminal `RunState` — there is no exceptional return
channel in the embedding), and every dispatched item whose provider calls
failed is matched, in order, by a sink result carrying an error-reason:
the caller observes failures only through emitted results and the terminal
status. -/
theorem C8_failures_converted (cfg : AiConfig) (provs : Providers) (cancel : Nat → Bool)
    (items : List Nat) :
    (List.Forall₂ (fun j r => exceptOk (itemOutcome provs j) = false → r.error ≠ none)
      (runModal0 cfg provs cancel items).histCalls
      (runModal0 cfg provs cancel items).results) ∧
    (List.Forall₂ (fun j r => exceptOk (itemOutcome provs j) = false → r.error ≠ none)
      (runModal1 cfg provs cancel items).histCalls
      (runModal1 cfg provs cancel items).results) ∧
    (List.Forall₂ (fun j r => exceptOk (itemOutcome provs j) = false → r.error ≠ none)
      (runModal2 cfg provs cancel items).histCalls
      (runModal2 cfg provs cancel items).results) := by
  refine ⟨?_, ?_, ?_⟩
  · refine runBatch_pairs modal0Params cfg provs cancel items _ ?_ ?_ ?_
    · intro j t p h hfail
      rw [h] at hfail
      simp [exceptOk] at hfail
    · intro j t f _ _
      simp [modal0Params, modal0Recov]
    · intro j t f b _ _
      cases b <;> simp [modal0Params, modal0Fatal]
  · refine runBatch_pairs modal1Params cfg provs cancel items _ ?_ ?_ ?_
    · intro j t p h hfail
      rw [h] at hfail
      simp [exceptOk] at hfail
    · intro j t f _ _
      simp [modal1Params, modal1Recov]
    · intro j t f b _ _
      cases b <;> simp [modal1Params, modal1Fatal]
  · refine runBatch_pairs modal2Params cfg provs cancel items _ ?_ ?_ ?_
    · intro j t p h hfail
      rw [h] at hfail
      simp [exceptOk] at hfail
    · intro j t f _ _
      simp [modal2Params, modal2Recov]
    · intro j t f b _ _
      cases b <;> simp [modal2Params, modal2Fatal]

/-! ## C10 — shape of synthetic failure results -/

/-- C10: in each of the three loop copies, a result carries an error-reason
exactly when its item's provider calls failed, and every such synthetic
failure result has score 0, `rcaDetected = false`, an empty strengths
list, and a non-empty error string (successful results, built from the
schema-constrained payload, carry no error field). -/
theorem C10_synthetic_shape (cfg : AiConfig) (provs : Providers) (cancel : Nat → Bool)
    (items : List Nat) :
    (List.Forall₂ (fun j r =>
        (r.error ≠ none ↔ exceptOk (itemOutcome provs j) = false) ∧
        (exceptOk (itemOutcome provs j) = false →
          r.score = 0 ∧ r.rcaDetected = false ∧ r.strengths = [] ∧ r.error ≠ some ""))
      (runModal0 cfg provs cancel items).histCalls
      (runModal0 cfg provs cancel items).results) ∧
    (List.Forall₂ (fun j r =>
        (r.error ≠ none ↔ exceptOk (itemOutcome provs j) = false) ∧
        (exceptOk (itemOutcome provs j) = false →
          r.score = 0 ∧ r.rcaDetected = false ∧ r.strengths = [] ∧ r.error ≠ some ""))
      (runModal1 cfg provs cancel items).histCalls
      (runModal1 cfg provs cancel items).results) ∧
    (List.Forall₂ (fun j r =>
        (r.error ≠ none ↔ exceptOk (itemOutcome provs j) = false) ∧
        (exceptOk (itemOutcome provs j) = false →
          r.score = 0 ∧ r.rcaDetected = false ∧ r.strengths = [] ∧ r.error ≠ some ""))
      (runModal2 cfg provs cancel items).histCalls
      (runModal2 cfg provs cancel items).results) := by
  refine ⟨?_, ?_, ?_⟩
  · refine runBatch_pairs modal0Params cfg provs cancel items _ ?_ ?_ ?_
    · intro j t p h
      constructor
      · simp [mkSuccess, h, exceptOk]
      · intro hfail
        rw [h] at hfail
        simp [exceptOk] at hfail
    · intro j t f h
      constructor
      · simp [modal0Params, modal0Recov, h, exceptOk]
      · intro _
        refine ⟨rfl, rfl, rfl, ?_⟩
        simp only [modal0Params, modal0Recov, ne_eq, Option.some.injEq]
        exact orUnknown_ne_empty f.message
    · intro j t f b h
      constructor
      · simp [h, exceptOk]
        cases b <;> simp [modal0Params, modal0Fatal]
      · intro _
        cases b <;> exact ⟨rfl, rfl, rfl, by simp [modal0Params, modal0Fatal]⟩
  · refine runBatch_pairs modal1Params cfg provs cancel items _ ?_ ?_ ?_
    · intro j t p h
      constructor
      · simp [mkSuccess, h, exceptOk]
      · intro hfail
        rw [h] at hfail
        simp [exceptOk] at hfail
    · intro j t f h
      constructor
      · simp [modal1Params, modal1Recov, h, exceptOk]
      · intro _
        refine ⟨rfl, rfl, rfl, ?_⟩
        simp only [modal1Params, modal1Recov, ne_eq, Option.some.injEq]
        exact orUnknown_ne_empty f.message
    · intro j t f b h
      constructor
      · simp [h, exceptOk]
        cases b <;> simp [modal1Params, modal1Fatal]
      · intro _
        cases b <;> exact ⟨rfl, rfl, rfl, by simp [modal1Params, modal1Fatal]⟩
  · refine runBatch_pairs modal2Params cfg provs cancel items _ ?_ ?_ ?_
    · intro j t p h
      constructor
      · simp [mkSuccess, h, exceptOk]
      · intro hfail
        rw [h] at hfail
        simp [exceptOk] at hfail
    · intro j t f h
      constructor
      · simp [modal2Params, modal2Recov, h, exceptOk]
      · intro _
        refine ⟨rfl, rfl, rfl, ?_⟩
        simp only [modal2Params, modal2Recov, ne_eq, Option.some.injEq]
        exact orUnknown_ne_empty f.message
    · intro j t f b h
      constructor
      · simp [h, exceptOk]
        cases b <;> simp [modal2Params, modal2Fatal]
      · intro _
        cases b <;> exact ⟨rfl, rfl, rfl, by simp [modal2Params, modal2Fatal]⟩

theorem validateApiKeyModel_some (apiKey envKey : Option String) (probe : String → Bool)
    (n : String) (h : resolveKey apiKey envKey = some n) :
    validateApiKeyModel apiKey envKey probe =
      if n == "" then (false, []) else (probe n, [n]) := by
  unfold validateApiKeyModel
  rw [h]

theorem analyzeTicketModel_some (apiKey envKey : Option String)
    (provider : String → Except Failure AnalysisPayload) (tid : Nat)
    (n : String) (h : resolveKey apiKey envKey = some n) :
    analyzeTicketModel apiKey envKey provider tid =
      if n == "" then
        (.error ⟨0, "API Key is missing. Please provide a key or configure the environment."⟩, [])
      else
        match provider n with
        | .error f => (.error f, [n])
        | .ok p => (.ok (mkSuccess tid p), [n]) := by
  unfold analyzeTicketModel
  rw [h]

/-! ## C9 — API-key normalisation and missing-key behaviour -/

/-- C9: every non-empty explicit key override passed to `validateApiKey`
or `analyzeTicket` is normalised before use — trimmed of surrounding
whitespace, then stripped of one leading and one trailing quote character
(single or double) — and the provider is only ever called with that
normalised key (exactly once when it is non-empty).  With no override and
no environment key, `validateApiKey` returns `false` and `analyzeTicket`
fails with the missing-key error, in both cases without calling the
provider. -/
theorem C9_key_handling (k : String) (envKey : Option String)
    (probe : String → Bool) (provider : String → Except Failure AnalysisPayload)
    (tid : Nat) (hk : k ≠ "") :
    (∀ u ∈ (validateApiKeyModel (some k) envKey probe).2, u = stripEdgeQuotes (strTrim k)) ∧
    (∀ u ∈ (analyzeTicketModel (some k) envKey provider tid).2,
      u = stripEdgeQuotes (strTrim k)) ∧
    (stripEdgeQuotes (strTrim k) ≠ "" →
      (validateApiKeyModel (some k) envKey probe).2 = [stripEdgeQuotes (strTrim k)] ∧
      (analyzeTicketModel (some k) envKey provider tid).2 = [stripEdgeQuotes (strTrim k)]) ∧
    validateApiKeyModel none none probe = (false, []) ∧
    (analyzeTicketModel none none provider tid).2 = [] ∧
    (analyzeTicketModel none none provider tid).1 =
      .error ⟨0, "API Key is missing. Please provide a key or configure the environment."⟩ := by
  have hres : resolveKey (some k) envKey = some (stripEdgeQuotes (strTrim k)) := by
    unfold resolveKey
    simp [hk]
  refine ⟨?_, ?_, ?_, rfl, rfl, rfl⟩
  · intro u hu
    rw [validateApiKeyModel_some (some k) envKey probe _ hres] at hu
    split at hu
    · simp at hu
    · simp at hu
      exact hu
  · intro u hu
    rw [analyzeTicketModel_some (some k) envKey provider tid _ hres] at hu
    split at hu
    · simp at hu
    · rcases hp : provider (stripEdgeQuotes (strTrim k)) with g | p <;> rw [hp] at hu <;>
        simp at hu <;> exact hu
  · intro hne
    constructor
    · rw [validateApiKeyModel_some (some k) envKey probe _ hres]
      simp [hne]
    · rw [analyzeTicketModel_some (some k) envKey provider tid _ hres]
      rcases hp : provider (stripEdgeQuotes (strTrim k)) with g | p <;> simp [hne, hp]

/-- C9 witness: a quoted, padded override; and the missing-key case. -/
theorem C9_witness :
    (∀ u ∈ (validateApiKeyModel (some "  \"secret-key\"  ") none (fun _ => true)).2,
      u = stripEdgeQuotes (strTrim "  \"secret-key\"  ")) ∧
    (∀ u ∈ (analyzeTicketModel (some "  \"secret-key\"  ") none (fun _ => .ok payloadA) 3).2,
      u = stripEdgeQuotes (strTrim "  \"secret-key\"  ")) ∧
    (stripEdgeQuotes (strTrim "  \"secret-key\"  ") ≠ "" →
      (validateApiKeyModel (some "  \"secret-key\"  ") none (fun _ => true)).2 =
        [stripEdgeQuotes (strTrim "  \"secret-key\"  ")] ∧
      (analyzeTicketModel (some "  \"secret-key\"  ") none (fun _ => .ok payloadA) 3).2 =
        [stripEdgeQuotes (strTrim "  \"secret-key\"  ")]) ∧
    validateApiKeyModel none none (fun _ => true) = (false, []) ∧
    (analyzeTicketModel none none (fun _ => .ok payloadA) 3).2 = [] ∧
    (analyzeTicketModel none none (fun _ => .ok payloadA) 3).1 =
      .error ⟨0, "API Key is missing. Please provide a key or configure the environment."⟩ :=
  C9_key_handling "  \"secret-key\"  " none (fun _ => true) (fun _ => .ok payloadA) 3
    (by decide)

/-- C8 witness: a run whose only item fails. -/
theorem C8_witness :
    (List.Forall₂
      (fun j r => exceptOk (itemOutcome (provsFailAt 0 500 "net down") j) = false →
        r.error ≠ none)
      (runModal0 cfgDefault (provsFailAt 0 500 "net down") noStop [1]).histCalls
      (runModal0 cfgDefault (provsFailAt 0 500 "net down") noStop [1]).results) ∧
    (List.Forall₂
      (fun j r => exceptOk (itemOutcome (provsFailAt 0 500 "net down") j) = false →
        r.error ≠ none)
      (runModal1 cfgDefault (provsFailAt 0 500 "net down") noStop [1]).histCalls
      (runModal1 cfgDefault (provsFailAt 0 500 "net down") noStop [1]).results) ∧
    (List.Forall₂
      (fun j r => exceptOk (itemOutcome (provsFailAt 0 500 "net down") j) = false →
        r.error ≠ none)
      (runModal2 cfgDefault (provsFailAt 0 500 "net down") noStop [1]).histCalls
      (runModal2 cfgDefault (provsFailAt 0 500 "net down") noStop [1]).results) :=
  C8_failures_converted cfgDefault (provsFailAt 0 500 "net down") noStop [1]

/-- C10 witness: a run with one success and one recoverable failure. -/
theorem C10_witness :
    (List.Forall₂ (fun j r =>
        (r.error ≠ none ↔ exceptOk (itemOutcome (provsFailAt 1 500 "") j) = false) ∧
        (exceptOk (itemOutcome (provsFailAt 1 500 "") j) = false →
          r.score = 0 ∧ r.rcaDetected = false ∧ r.strengths = [] ∧ r.error ≠ some ""))
      (runModal0 cfgDefault (provsFailAt 1 500 "") noStop [1, 2]).histCalls
      (runModal0 cfgDefault (provsFailAt 1 500 "") noStop [1, 2]).results) ∧
    (List.Forall₂ (fun j r =>
        (r.error ≠ none ↔ exceptOk (itemOutcome (provsFailAt 1 500 "") j) = false) ∧
        (exceptOk (itemOutcome (provsFailAt 1 500 "") j) = false →
          r.score = 0 ∧ r.rcaDetected = false ∧ r.strengths = [] ∧ r.error ≠ some ""))
      (runModal1 cfgDefault (provsFailAt 1 500 "") noStop [1, 2]).histCalls
      (runModal1 cfgDefault (provsFailAt 1 500 "") noStop [1, 2]).results) ∧
    (List.Forall₂ (fun j r =>
        (r.error ≠ none ↔ exceptOk (itemOutcome (provsFailAt 1 500 "") j) = false) ∧
        (exceptOk (itemOutcome (provsFailAt 1 500 "") j) = false →
          r.score = 0 ∧ r.rcaDetected = false ∧ r.strengths = [] ∧ r.error ≠ some ""))
      (runModal2 cfgDefault (provsFailAt 1 500 "") noStop [1, 2]).histCalls
      (runModal2 cfgDefault (provsFailAt 1 500 "") noStop [1, 2]).results) :=
  C10_synthetic_shape cfgDefault (provsFailAt 1 500 "") noStop [1, 2]
